import Mathlib

/- Verification development for the splurge_sql_runner batch execution engine
   (src/splurge_sql_runner/database/engines.py) and its error-handling design.
   The embedding is pure: the external SQLAlchemy connection is modelled as an
   oracle assigning an outcome to every raw driver call, and the engine's
   control flow (the statement loop, the commit/rollback handler, the
   exception classification in `batch`) is translated statement by statement. -/

deriving instance DecidableEq for Except

/-- Constant `FETCH_STATEMENT` from `splurge_sql_runner.sql_helper`. -/
def FETCH_STATEMENT : String := "fetch"

/-- Constant `EXECUTE_STATEMENT` from `splurge_sql_runner.sql_helper`. -/
def EXECUTE_STATEMENT : String := "execute"

/-- Constant `ERROR_STATEMENT` from `splurge_sql_runner.sql_helper`. -/
def ERROR_STATEMENT : String := "error"

/-- One result row: a mapping from column name to (stringified) value, as
produced by `dict(row._mapping)` in `SqlAlchemyConnection.fetch_all`. -/
abbrev Row := List (String × String)

/-- Value stored under the `result` key of a statement-result dict: either the
fetched rows (fetch statements) or the literal `True` (execute statements). -/
inductive ResultVal where
  | rows (rs : List Row)
  | boolTrue
  deriving DecidableEq, Repr

/-- Mirrors one result dict appended by
`UnifiedDatabaseEngine._execute_batch_statements` (engines.py lines 290-318)
or by the error fallback in `batch` (lines 261-265).  `result` and
`row_count` are absent (`none`) on error entries; `row_count = some none`
mirrors the Python `None` row count of execute entries. -/
structure StmtResult where
  statement : String
  statement_type : String
  result : Option ResultVal
  row_count : Option (Option Nat)
  error : Option String
  deriving DecidableEq, Repr

/-- Exceptions that can flow through `batch`: `DatabaseConnectionError`,
`DatabaseOperationError`, `SqlParseError`, and Python's unbound-local error
(reachable when the `except` clause of `_execute_batch_statements` runs with
the loop variable `stmt` never assigned). -/
inductive DbExc where
  | connE (msg : String)
  | opE (msg : String)
  | parseE (msg : String)
  | nameE (msg : String)
  deriving DecidableEq, Repr

/-- Message carried by an exception, i.e. Python's `str(e)`. -/
def DbExc.msg : DbExc → String
  | .connE m => m
  | .opE m => m
  | .parseE m => m
  | .nameE m => m

/-- Mirrors `isinstance(e, DatabaseConnectionError)` in `batch`. -/
def DbExc.isConnE : DbExc → Bool
  | .connE _ => true
  | _ => false

/-- Observable calls issued on the connection, in order.  Fetch and execute
calls record the batch position of the statement they serve. -/
inductive DbCall where
  | fetchAllC (i : Nat) (stmt : String)
  | executeC (i : Nat) (stmt : String)
  | commitC
  | rollbackC
  | closeC
  deriving DecidableEq, Repr

/-- Batch position served by a call (`none` for commit/rollback/close). -/
def DbCall.stmtIndex : DbCall → Option Nat
  | .fetchAllC i _ => some i
  | .executeC i _ => some i
  | _ => none

/-- Positions of the statements attempted, in call order. -/
def stmtIndices (cs : List DbCall) : List Nat :=
  cs.filterMap DbCall.stmtIndex

/-- Oracle for the underlying SQLAlchemy `Connection`: the outcome of each raw
driver call.  Fetch and execute outcomes are keyed by the position of the
statement in the batch, so every concrete sequential execution (including any
dependence of later outcomes on earlier statements) is representable. -/
structure Conn where
  fetchAllR : Nat → String → Except String (List Row)
  executeR : Nat → String → Except String Unit
  commitR : Except String Unit
  rollbackR : Except String Unit

/-- Embeds `SqlAlchemyConnection.fetch_all` (engines.py lines 59-67): a raw
driver failure is re-raised as `DatabaseOperationError` with the message
prefix used by the source. -/
def SqlAlchemyConnection.fetch_all (c : Conn) (i : Nat) (sql : String) :
    Except DbExc (List Row) :=
  match c.fetchAllR i sql with
  | .ok rows => .ok rows
  | .error e => .error (.opE ("Data fetch failed: " ++ e))

/-- Embeds the execution path of `SqlAlchemyConnection.execute` (engines.py
lines 42-57) as seen from the batch loop, which passes no parameters. -/
def SqlAlchemyConnection.execute (c : Conn) (i : Nat) (sql : String) :
    Except DbExc Unit :=
  match c.executeR i sql with
  | .ok _ => .ok ()
  | .error e => .error (.opE ("SQL execution failed: " ++ e))

/-- Embeds `SqlAlchemyConnection.commit` (engines.py lines 79-85). -/
def SqlAlchemyConnection.commit (c : Conn) : Except DbExc Unit :=
  match c.commitR with
  | .ok _ => .ok ()
  | .error e => .error (.opE ("Commit failed: " ++ e))

/-- Embeds `SqlAlchemyConnection.rollback` (engines.py lines 87-93). -/
def SqlAlchemyConnection.rollback (c : Conn) : Except DbExc Unit :=
  match c.rollbackR with
  | .ok _ => .ok ()
  | .error e => .error (.opE ("Rollback failed: " ++ e))

/-- Observable outcome of a close-style method: the exception it lets escape
(if any) and the message it logs (if any). -/
structure CloseOutcome where
  raised : Option DbExc
  logged : Option String
  deriving DecidableEq, Repr

/-- Embeds `SqlAlchemyConnection.close` (engines.py lines 95-100): the raw
`close` outcome is given as input; a failure is logged and swallowed. -/
def SqlAlchemyConnection.close (underlying : Except String Unit) : CloseOutcome :=
  match underlying with
  | .ok _ => ⟨none, none⟩
  | .error e => ⟨none, some ("Failed to close connection: " ++ e)⟩

/-- Embeds `UnifiedDatabaseEngine.close` (engines.py lines 321-328): the raw
`dispose` outcome is given as input; a failure is logged and swallowed. -/
def UnifiedDatabaseEngine.close (dispose : Except String Unit) : CloseOutcome :=
  match dispose with
  | .ok _ => ⟨none, none⟩
  | .error e => ⟨none, some ("Failed to close engine: " ++ e)⟩

/-- Value reaching `batch`'s `try` boundary after the `with` block's implicit
`close`: an exception raised by `__exit__` would replace the pending value,
a swallowed failure leaves it untouched. -/
def afterClose (v : Except DbExc (List StmtResult)) (cl : CloseOutcome) :
    Except DbExc (List StmtResult) :=
  match cl.raised with
  | some e => .error e
  | none => v

/-- Result dict built for a successful fetch statement (engines.py 290-297). -/
def fetchEntry (stmt : String) (rows : List Row) : StmtResult :=
  ⟨stmt, FETCH_STATEMENT, some (.rows rows), some (some rows.length), none⟩

/-- Result dict built for a successful execute statement (engines.py 301-308). -/
def execEntry (stmt : String) : StmtResult :=
  ⟨stmt, EXECUTE_STATEMENT, some .boolTrue, some none, none⟩

/-- Result dict built for a failed statement (engines.py 312-318) or for the
error fallback of `batch` (engines.py 261-265). -/
def errorEntry (stmt msg : String) : StmtResult :=
  ⟨stmt, ERROR_STATEMENT, none, none, some msg⟩

/-- Outcome of the `for` loop of `_execute_batch_statements`: results
appended so far, connection calls issued, and the statement/exception pair at
which the loop aborted (if any). -/
structure LoopOut where
  results : List StmtResult
  calls : List DbCall
  failure : Option (String × DbExc)
  deriving DecidableEq, Repr

/-- Embeds the `for` loop of `_execute_batch_statements` (engines.py lines
283-308): statements run in order; the branch is chosen by comparing
`detect_statement_type` with `FETCH_STATEMENT`; the first exception aborts
the loop with no further calls. -/
def runStatements (c : Conn) (d : String → String) : Nat → List String → LoopOut
  | _, [] => ⟨[], [], none⟩
  | i, s :: rest =>
    if d s = FETCH_STATEMENT then
      match SqlAlchemyConnection.fetch_all c i s with
      | .ok rows =>
        let o := runStatements c d (i + 1) rest
        ⟨fetchEntry s rows :: o.results, .fetchAllC i s :: o.calls, o.failure⟩
      | .error e => ⟨[], [.fetchAllC i s], some (s, e)⟩
    else
      match SqlAlchemyConnection.execute c i s with
      | .ok _ =>
        let o := runStatements c d (i + 1) rest
        ⟨execEntry s :: o.results, .executeC i s :: o.calls, o.failure⟩
      | .error e => ⟨[], [.executeC i s], some (s, e)⟩

/-- Outcome of one engine-level operation: the value returned or exception
propagated, together with the connection calls issued. -/
structure BatchRun where
  value : Except DbExc (List StmtResult)
  calls : List DbCall
  deriving DecidableEq, Repr

/-- Embeds the `except` clause of `_execute_batch_statements` (engines.py
lines 310-318): roll back, then append an error entry for the Python loop
variable `stmt`.  When the loop never ran, `stmt` is unbound and the append
itself raises; when the rollback raises, its exception propagates and the
accumulated results are lost. -/
def exceptClause (c : Conn) (rs : List StmtResult) (cs : List DbCall)
    (lastStmt : Option String) (e : DbExc) : BatchRun :=
  match SqlAlchemyConnection.rollback c with
  | .ok _ =>
    match lastStmt with
    | some s => ⟨.ok (rs ++ [errorEntry s e.msg]), cs ++ [.rollbackC]⟩
    | none => ⟨.error (.nameE "local variable referenced before assignment"),
               cs ++ [.rollbackC]⟩
  | .error e2 => ⟨.error e2, cs ++ [.rollbackC]⟩

/-- Embeds the `try` body plus handler of `_execute_batch_statements`
(engines.py lines 282-319), applied to an already-parsed statement list:
run all statements, commit on full success, and divert any exception
(statement failure or commit failure) to the `except` clause. -/
def execBatchCore (c : Conn) (d : String → String) (stmts : List String) :
    BatchRun :=
  let o := runStatements c d 0 stmts
  match o.failure with
  | some (s, e) => exceptClause c o.results o.calls (some s) e
  | none =>
    match SqlAlchemyConnection.commit c with
    | .ok _ => ⟨.ok o.results, o.calls ++ [.commitC]⟩
    | .error e => exceptClause c o.results (o.calls ++ [.commitC]) stmts.getLast? e

/-- Single-quote character (code point 39). -/
def squoteChar : Char := Char.ofNat 39

/-- Double-quote character (code point 34). -/
def dquoteChar : Char := Char.ofNat 34

/-- Whitespace test used when trimming split statements. -/
def isWsChar (c : Char) : Bool :=
  c = ' ' || c = '\t' || c = '\n' || c = '\r'

/-- Trim leading and trailing whitespace from a character list. -/
def trimChars (cs : List Char) : List Char :=
  ((cs.dropWhile isWsChar).reverse.dropWhile isWsChar).reverse

/-- Close the statement accumulated so far: trim it and drop it if empty. -/
def finalizeStmt (cur : List Char) (acc : List String) : List String :=
  let t := trimChars cur
  if t = [] then acc else acc ++ [String.mk t]

/-- Scanner state of the statement splitter: outside any literal or comment
(`normal`), just after a lone `-` or `/` that may open a comment (`sawDash`,
`sawSlash`), inside a single- or double-quoted literal (`single`, `double`),
just after a quote that may close the literal or be the first half of a
doubled quote (`singleQ`, `doubleQ`), inside a line comment (`lineC`), and
inside a block comment, possibly just after a `*` (`blockC`, `blockStar`). -/
inductive ScanState where
  | normal
  | sawDash
  | sawSlash
  | single
  | singleQ
  | double
  | doubleQ
  | lineC
  | blockC
  | blockStar
  deriving DecidableEq, Repr

/-- Error message for input ending inside a quoted literal. -/
def unterminatedQuoteMsg : String := "unterminated quoted string at end of input"

/-- Error message for input ending inside a block comment. -/
def unterminatedCommentMsg : String := "unterminated block comment at end of input"

/-- One character handled in the `normal` state: quotes open literals, an
unquoted semicolon closes the current statement, `-` and `/` may open a
comment, everything else is copied. -/
def normalStep (c : Char) (cur : List Char) (acc : List String) :
    ScanState × List Char × List String :=
  if c = squoteChar then (.single, cur ++ [c], acc)
  else if c = dquoteChar then (.double, cur ++ [c], acc)
  else if c = ';' then (.normal, [], finalizeStmt cur acc)
  else if c = '-' then (.sawDash, cur, acc)
  else if c = '/' then (.sawSlash, cur, acc)
  else (.normal, cur ++ [c], acc)

/-- Modelled from the spec: the statement splitter `parse_sql_statements`
lives in `splurge_sql_runner.sql_helper`, which is not under src/.  Spec 4.1:
statements are delimited by unquoted, uncommented semicolons; line (`--`) and
block (`/* */`) comments are removed before delimiter scanning; quoted
literals (with doubled embedded quotes) are scanned verbatim; statements are
trimmed and empty ones dropped; an unterminated quote or block comment at end
of input is a parse error. -/
def scanSql : List Char → ScanState → List Char → List String →
    Except String (List String)
  | [], st, cur, acc =>
    match st with
    | .normal => .ok (finalizeStmt cur acc)
    | .lineC => .ok (finalizeStmt cur acc)
    | .sawDash => .ok (finalizeStmt (cur ++ ['-']) acc)
    | .sawSlash => .ok (finalizeStmt (cur ++ ['/']) acc)
    | .singleQ => .ok (finalizeStmt (cur ++ [squoteChar]) acc)
    | .doubleQ => .ok (finalizeStmt (cur ++ [dquoteChar]) acc)
    | .single => .error unterminatedQuoteMsg
    | .double => .error unterminatedQuoteMsg
    | .blockC => .error unterminatedCommentMsg
    | .blockStar => .error unterminatedCommentMsg
  | c :: rest, st, cur, acc =>
    match st with
    | .normal =>
      let t := normalStep c cur acc
      scanSql rest t.1 t.2.1 t.2.2
    | .sawDash =>
      if c = '-' then scanSql rest .lineC cur acc
      else
        let t := normalStep c (cur ++ ['-']) acc
        scanSql rest t.1 t.2.1 t.2.2
    | .sawSlash =>
      if c = '*' then scanSql rest .blockC cur acc
      else
        let t := normalStep c (cur ++ ['/']) acc
        scanSql rest t.1 t.2.1 t.2.2
    | .single =>
      if c = squoteChar then scanSql rest .singleQ cur acc
      else scanSql rest .single (cur ++ [c]) acc
    | .singleQ =>
      if c = squoteChar then
        scanSql rest .single (cur ++ [squoteChar, squoteChar]) acc
      else
        let t := normalStep c (cur ++ [squoteChar]) acc
        scanSql rest t.1 t.2.1 t.2.2
    | .double =>
      if c = dquoteChar then scanSql rest .doubleQ cur acc
      else scanSql rest .double (cur ++ [c]) acc
    | .doubleQ =>
      if c = dquoteChar then
        scanSql rest .double (cur ++ [dquoteChar, dquoteChar]) acc
      else
        let t := normalStep c (cur ++ [dquoteChar]) acc
        scanSql rest t.1 t.2.1 t.2.2
    | .lineC =>
      if c = '\n' then scanSql rest .normal (cur ++ [c]) acc
      else scanSql rest .lineC cur acc
    | .blockC =>
      if c = '*' then scanSql rest .blockStar cur acc
      else scanSql rest .blockC cur acc
    | .blockStar =>
      if c = '/' then scanSql rest .normal (cur ++ [' ']) acc
      else if c = '*' then scanSql rest .blockStar cur acc
      else scanSql rest .blockC cur acc

/-- Modelled from the spec: entry point of the statement splitter. -/
def parse_sql_statements (sql : String) : Except String (List String) :=
  scanSql sql.data .normal [] []

/-- Embeds `_execute_batch_statements` over raw text (engines.py line 279
followed by lines 282-319): parsing happens before the `try`, so a parse
error propagates out of this function. -/
def execBatchStatements (c : Conn) (d : String → String) (q : String) :
    BatchRun :=
  match parse_sql_statements q with
  | .error pe => ⟨.error (.parseE pe), []⟩
  | .ok stmts => execBatchCore c d stmts

/-- Pattern occurs at the head of the text. -/
def subAt : List Char → List Char → Bool
  | [], _ => true
  | _ :: _, [] => false
  | p :: ps, t :: ts => p == t && subAt ps ts

/-- Pattern occurs somewhere in the text (Python's `in` on strings). -/
def hasSub (pat : List Char) : List Char → Bool
  | [] => pat.isEmpty
  | t :: ts => subAt pat (t :: ts) || hasSub pat ts

/-- Substring test on strings. -/
def strContainsSub (s pat : String) : Bool := hasSub pat.data s.data

/-- Python's `str.lower()` restricted to the character-wise case mapping. -/
def lowerStr (s : String) : String := String.mk (s.data.map Char.toLower)

/-- Embeds the connection-error test in `batch`'s `except` clause
(engines.py lines 252-257), minus the `isinstance` disjunct which is handled
separately: keyword search over the lowered exception message. -/
def isConnectionLike (m : String) : Bool :=
  strContainsSub (lowerStr m) "connection" ||
  strContainsSub (lowerStr m) "connect" ||
  strContainsSub (lowerStr m) "unable to connect" ||
  strContainsSub (lowerStr m) "connection refused" ||
  strContainsSub (lowerStr m) "timeout"

/-- Embeds `UnifiedDatabaseEngine.batch` (engines.py lines 221-265):
`create_connection` may fail (its `DatabaseConnectionError` is re-raised with
the `batch` prefix); otherwise the statement batch runs, the connection is
closed by the `with` block, and an escaping exception is re-raised as
`DatabaseConnectionError` when it is one or merely sounds connection-like,
else converted into a single-entry error result. -/
def batchFn (connRes : Except String Conn) (closeO : Except String Unit)
    (d : String → String) (q : String) :
    Except DbExc (List StmtResult) × List DbCall :=
  match connRes with
  | .error ce =>
    (.error (.connE ("Database connection failed: " ++
        ("Failed to create connection: " ++ ce))), [])
  | .ok c =>
    let run := execBatchStatements c d q
    let calls := run.calls ++ [DbCall.closeC]
    match afterClose run.value (SqlAlchemyConnection.close closeO) with
    | .ok rs => (.ok rs, calls)
    | .error e =>
      if e.isConnE || isConnectionLike e.msg then
        (.error (.connE ("Database connection failed: " ++ e.msg)), calls)
      else
        (.ok [errorEntry q e.msg], calls)

/-- Configuration of the circuit breaker: failure threshold and reset
timeout (time modelled as natural ticks). -/
structure CircuitBreakerConfig where
  failureThreshold : Nat
  resetTimeout : Nat
  deriving DecidableEq, Repr

/-- States of the circuit breaker. -/
inductive CBState where
  | closed (failures : Nat)
  | opened (openedAt : Nat)
  | halfOpen
  deriving DecidableEq, Repr

/-- Observable outcome of one guarded call: resulting state, whether the
wrapped operation was invoked, whether the call was rejected with a
BreakerOpenError, and whether it was the half-open trial. -/
structure CBOutcome where
  state : CBState
  invoked : Bool
  rejected : Bool
  trial : Bool
  deriving DecidableEq, Repr

/-- Modelled from the spec: the `CircuitBreaker` class is exported by
`splurge_sql_runner.errors` but its implementation
(`errors/error_handler.py`) is not under src/.  Spec 4.5: Closed passes
calls through, counting consecutive failures, and opens at
`failureThreshold`; Open rejects without invoking until `resetTimeout` has
elapsed since opening, then moves to HalfOpen and admits exactly one trial;
a successful trial closes the breaker with the counter reset, a failed one
reopens it and resets the timer. -/
def cbCall (cfg : CircuitBreakerConfig) : CBState → Nat → Bool → CBOutcome
  | .closed _, _, true => ⟨.closed 0, true, false, false⟩
  | .closed n, now, false =>
    ⟨if cfg.failureThreshold ≤ n + 1 then .opened now else .closed (n + 1),
     true, false, false⟩
  | .opened t, now, ok =>
    if t + cfg.resetTimeout ≤ now then
      ⟨if ok then .closed 0 else .opened now, true, false, true⟩
    else ⟨.opened t, false, true, false⟩
  | .halfOpen, now, ok =>
    ⟨if ok then .closed 0 else .opened now, true, false, true⟩

/-- State after `n` consecutive failing calls at time `t`. -/
def failN (cfg : CircuitBreakerConfig) (t : Nat) : Nat → CBState → CBState
  | 0, s => s
  | n + 1, s => (cbCall cfg (failN cfg t n s) t false).state

/-- How parameters are handed to the underlying SQLAlchemy connection. -/
inductive BindMode (V : Type) where
  | positional (vals : List V)
  | named (ps : List (String × V))
  | unbound
  deriving DecidableEq, Repr

/-- Embeds the parameter heuristic of `SqlAlchemyConnection.execute`
(engines.py lines 44-53): a truthy (non-empty) mapping combined with a
question mark anywhere in the SQL text becomes the positional list of the
mapping's values; a truthy mapping otherwise is passed as named parameters;
an empty or absent mapping is passed as nothing. -/
def paramBinding {V : Type} (sql : String) (ps : List (String × V)) :
    BindMode V :=
  if ps.isEmpty = false ∧ strContainsSub sql "?" = true then
    .positional (ps.map Prod.snd)
  else if ps.isEmpty = false then .named ps
  else .unbound

/-- Helper facts about entry shapes. -/
theorem fetchEntry_type (s : String) (rows : List Row) :
    (fetchEntry s rows).statement_type = FETCH_STATEMENT := rfl

theorem execEntry_type (s : String) :
    (execEntry s).statement_type = EXECUTE_STATEMENT := rfl

theorem errorEntry_type (s m : String) :
    (errorEntry s m).statement_type = ERROR_STATEMENT := rfl

/-- The loop never produces more results than there are statements. -/
theorem runStatements_results_le (c : Conn) (d : String → String) :
    ∀ (ss : List String) (i : Nat),
      (runStatements c d i ss).results.length ≤ ss.length := by
  intro ss
  induction ss with
  | nil => intro i; simp [runStatements]
  | cons s rest ih =>
    intro i
    simp only [runStatements]
    by_cases hd : d s = FETCH_STATEMENT
    · simp only [if_pos hd]
      cases hfa : SqlAlchemyConnection.fetch_all c i s with
      | ok rows => simpa using ih (i + 1)
      | error e => simp
    · simp only [if_neg hd]
      cases hex : SqlAlchemyConnection.execute c i s with
      | ok u => simpa using ih (i + 1)
      | error e => simp

/-- Each result the loop records belongs to the statement at the same
position, and is the success entry the branch for that statement builds. -/
theorem runStatements_results_get (c : Conn) (d : String → String) :
    ∀ (ss : List String) (i j : Nat) (e : StmtResult),
      (runStatements c d i ss).results[j]? = some e →
      ss[j]? = some e.statement ∧
      ((d e.statement = FETCH_STATEMENT ∧
          ∃ rows, e = fetchEntry e.statement rows ∧
            c.fetchAllR (i + j) e.statement = .ok rows) ∨
       (d e.statement ≠ FETCH_STATEMENT ∧ e = execEntry e.statement ∧
          c.executeR (i + j) e.statement = .ok ())) := by
  intro ss
  induction ss with
  | nil => intro i j e h; simp [runStatements] at h
  | cons s rest ih =>
    intro i j e h
    simp only [runStatements, SqlAlchemyConnection.fetch_all,
      SqlAlchemyConnection.execute] at h
    by_cases hd : d s = FETCH_STATEMENT
    · simp only [if_pos hd] at h
      cases hraw : c.fetchAllR i s with
      | ok rows =>
        rw [hraw] at h
        simp only at h
        cases j with
        | zero =>
          simp only [List.getElem?_cons_zero, Option.some.injEq] at h
          subst h
          refine ⟨by simp [fetchEntry], Or.inl ⟨by simpa [fetchEntry] using hd,
            rows, rfl, by simpa [fetchEntry] using hraw⟩⟩
        | succ j =>
          simp only [List.getElem?_cons_succ] at h ⊢
          have := ih (i + 1) j e h
          simpa [Nat.add_assoc, Nat.add_comm 1 j] using this
      | error e2 =>
        rw [hraw] at h
        simp at h
    · simp only [if_neg hd] at h
      cases hraw : c.executeR i s with
      | ok u =>
        rw [hraw] at h
        simp only at h
        cases j with
        | zero =>
          simp only [List.getElem?_cons_zero, Option.some.injEq] at h
          subst h
          refine ⟨by simp [execEntry], Or.inr ⟨by simpa [execEntry] using hd,
            rfl, by simpa [execEntry] using hraw⟩⟩
        | succ j =>
          simp only [List.getElem?_cons_succ] at h ⊢
          have := ih (i + 1) j e h
          simpa [Nat.add_assoc, Nat.add_comm 1 j] using this
      | error e2 =>
        rw [hraw] at h
        simp at h

/-- Step equation: fetch branch, successful driver call. -/
theorem runStatements_cons_fetch_ok (c : Conn) (d : String → String)
    (i : Nat) (s : String) (rest : List String) (rows : List Row)
    (hd : d s = FETCH_STATEMENT) (hraw : c.fetchAllR i s = .ok rows) :
    runStatements c d i (s :: rest) =
      ⟨fetchEntry s rows :: (runStatements c d (i + 1) rest).results,
       .fetchAllC i s :: (runStatements c d (i + 1) rest).calls,
       (runStatements c d (i + 1) rest).failure⟩ := by
  simp [runStatements, SqlAlchemyConnection.fetch_all, hd, hraw]

/-- Step equation: fetch branch, failing driver call. -/
theorem runStatements_cons_fetch_err (c : Conn) (d : String → String)
    (i : Nat) (s : String) (rest : List String) (m : String)
    (hd : d s = FETCH_STATEMENT) (hraw : c.fetchAllR i s = .error m) :
    runStatements c d i (s :: rest) =
      ⟨[], [.fetchAllC i s], some (s, .opE ("Data fetch failed: " ++ m))⟩ := by
  simp [runStatements, SqlAlchemyConnection.fetch_all, hd, hraw]

/-- Step equation: execute branch, successful driver call. -/
theorem runStatements_cons_exec_ok (c : Conn) (d : String → String)
    (i : Nat) (s : String) (rest : List String)
    (hd : d s ≠ FETCH_STATEMENT) (hraw : c.executeR i s = .ok ()) :
    runStatements c d i (s :: rest) =
      ⟨execEntry s :: (runStatements c d (i + 1) rest).results,
       .executeC i s :: (runStatements c d (i + 1) rest).calls,
       (runStatements c d (i + 1) rest).failure⟩ := by
  simp [runStatements, SqlAlchemyConnection.execute, hd, hraw]

/-- Step equation: execute branch, failing driver call. -/
theorem runStatements_cons_exec_err (c : Conn) (d : String → String)
    (i : Nat) (s : String) (rest : List String) (m : String)
    (hd : d s ≠ FETCH_STATEMENT) (hraw : c.executeR i s = .error m) :
    runStatements c d i (s :: rest) =
      ⟨[], [.executeC i s], some (s, .opE ("SQL execution failed: " ++ m))⟩ := by
  simp [runStatements, SqlAlchemyConnection.execute, hd, hraw]

/-- The step equations cover all cases; this eliminator packages the case
split used by the induction proofs below. -/
theorem runStatements_cons_cases (c : Conn) (d : String → String)
    (i : Nat) (s : String) (rest : List String) (P : Prop)
    (hfo : ∀ rows, d s = FETCH_STATEMENT → c.fetchAllR i s = .ok rows →
      runStatements c d i (s :: rest) =
        ⟨fetchEntry s rows :: (runStatements c d (i + 1) rest).results,
         .fetchAllC i s :: (runStatements c d (i + 1) rest).calls,
         (runStatements c d (i + 1) rest).failure⟩ → P)
    (hfe : ∀ m, d s = FETCH_STATEMENT → c.fetchAllR i s = .error m →
      runStatements c d i (s :: rest) =
        ⟨[], [.fetchAllC i s], some (s, .opE ("Data fetch failed: " ++ m))⟩ → P)
    (heo : d s ≠ FETCH_STATEMENT → c.executeR i s = .ok () →
      runStatements c d i (s :: rest) =
        ⟨execEntry s :: (runStatements c d (i + 1) rest).results,
         .executeC i s :: (runStatements c d (i + 1) rest).calls,
         (runStatements c d (i + 1) rest).failure⟩ → P)
    (hee : ∀ m, d s ≠ FETCH_STATEMENT → c.executeR i s = .error m →
      runStatements c d i (s :: rest) =
        ⟨[], [.executeC i s], some (s, .opE ("SQL execution failed: " ++ m))⟩ → P) :
    P := by
  by_cases hd : d s = FETCH_STATEMENT
  · cases hraw : c.fetchAllR i s with
    | ok rows =>
      exact hfo rows hd hraw (runStatements_cons_fetch_ok c d i s rest rows hd hraw)
    | error m =>
      exact hfe m hd hraw (runStatements_cons_fetch_err c d i s rest m hd hraw)
  · cases hraw : c.executeR i s with
    | ok u =>
      exact heo hd (by simpa using hraw) (runStatements_cons_exec_ok c d i s rest hd (by simpa using hraw))
    | error m =>
      exact hee m hd hraw (runStatements_cons_exec_err c d i s rest m hd hraw)

/-- When the loop finishes without failure it has recorded one result per
statement. -/
theorem runStatements_none_length (c : Conn) (d : String → String) :
    ∀ (ss : List String) (i : Nat),
      (runStatements c d i ss).failure = none →
      (runStatements c d i ss).results.length = ss.length := by
  intro ss
  induction ss with
  | nil => intro i _; simp [runStatements]
  | cons s rest ih =>
    intro i h
    refine runStatements_cons_cases c d i s rest _ ?_ ?_ ?_ ?_
    · intro rows _ _ heq
      rw [heq] at h ⊢
      simpa using ih (i + 1) (by simpa using h)
    · intro m _ _ heq
      rw [heq] at h
      simp at h
    · intro _ _ heq
      rw [heq] at h ⊢
      simpa using ih (i + 1) (by simpa using h)
    · intro m _ _ heq
      rw [heq] at h
      simp at h

/-- When the loop aborts, fewer results than statements were recorded. -/
theorem runStatements_some_length (c : Conn) (d : String → String) :
    ∀ (ss : List String) (i : Nat) (s : String) (e : DbExc),
      (runStatements c d i ss).failure = some (s, e) →
      (runStatements c d i ss).results.length < ss.length := by
  intro ss
  induction ss with
  | nil => intro i s e h; simp [runStatements] at h
  | cons s0 rest ih =>
    intro i s e h
    refine runStatements_cons_cases c d i s0 rest _ ?_ ?_ ?_ ?_
    · intro rows _ _ heq
      rw [heq] at h ⊢
      simpa using ih (i + 1) s e (by simpa using h)
    · intro m _ _ heq
      rw [heq]
      simp
    · intro _ _ heq
      rw [heq] at h ⊢
      simpa using ih (i + 1) s e (by simpa using h)
    · intro m _ _ heq
      rw [heq]
      simp

/-- When the loop aborts at exception `e`, the failing statement is the one
right after the recorded results, and `e` is the wrapped outcome of its
fetch or execute call. -/
theorem runStatements_failure_stmt (c : Conn) (d : String → String) :
    ∀ (ss : List String) (i : Nat) (s : String) (e : DbExc),
      (runStatements c d i ss).failure = some (s, e) →
      ss[(runStatements c d i ss).results.length]? = some s ∧
      ((d s = FETCH_STATEMENT ∧
          ∃ m, c.fetchAllR (i + (runStatements c d i ss).results.length) s
              = .error m ∧ e = .opE ("Data fetch failed: " ++ m)) ∨
       (d s ≠ FETCH_STATEMENT ∧
          ∃ m, c.executeR (i + (runStatements c d i ss).results.length) s
              = .error m ∧ e = .opE ("SQL execution failed: " ++ m))) := by
  intro ss
  induction ss with
  | nil => intro i s e h; simp [runStatements] at h
  | cons s0 rest ih =>
    intro i s e h
    refine runStatements_cons_cases c d i s0 rest _ ?_ ?_ ?_ ?_
    · intro rows _ _ heq
      rw [heq] at h ⊢
      have := ih (i + 1) s e (by simpa using h)
      simpa [Nat.add_assoc, Nat.add_comm 1 _] using this
    · intro m hd hraw heq
      rw [heq] at h ⊢
      simp only [Option.some.injEq, Prod.mk.injEq] at h
      obtain ⟨hs, he⟩ := h
      subst hs
      exact ⟨by simp, Or.inl ⟨hd, m, by simpa using hraw, he.symm⟩⟩
    · intro _ _ heq
      rw [heq] at h ⊢
      have := ih (i + 1) s e (by simpa using h)
      simpa [Nat.add_assoc, Nat.add_comm 1 _] using this
    · intro m hd hraw heq
      rw [heq] at h ⊢
      simp only [Option.some.injEq, Prod.mk.injEq] at h
      obtain ⟨hs, he⟩ := h
      subst hs
      exact ⟨by simp, Or.inr ⟨hd, m, by simpa using hraw, he.symm⟩⟩

/-- The loop's call list serves consecutive statement positions starting at
`i`: the j-th call serves position `i + j`. -/
theorem runStatements_stmtIndices (c : Conn) (d : String → String) :
    ∀ (ss : List String) (i : Nat),
      stmtIndices (runStatements c d i ss).calls =
        List.range' i (runStatements c d i ss).calls.length := by
  intro ss
  induction ss with
  | nil => intro i; simp [runStatements, stmtIndices]
  | cons s rest ih =>
    intro i
    refine runStatements_cons_cases c d i s rest _ ?_ ?_ ?_ ?_
    · intro rows _ _ heq
      rw [heq]
      simp only [stmtIndices, List.filterMap_cons, DbCall.stmtIndex,
        List.length_cons, List.range'_succ]
      exact congrArg (i :: ·) (ih (i + 1))
    · intro m _ _ heq
      rw [heq]
      simp [stmtIndices, DbCall.stmtIndex, List.range'_succ]
    · intro _ _ heq
      rw [heq]
      simp only [stmtIndices, List.filterMap_cons, DbCall.stmtIndex,
        List.length_cons, List.range'_succ]
      exact congrArg (i :: ·) (ih (i + 1))
    · intro m _ _ heq
      rw [heq]
      simp [stmtIndices, DbCall.stmtIndex, List.range'_succ]

/-- The loop issues one call per recorded result, plus one for the failing
statement when it aborts. -/
theorem runStatements_calls_length (c : Conn) (d : String → String) :
    ∀ (ss : List String) (i : Nat),
      (runStatements c d i ss).calls.length =
        (runStatements c d i ss).results.length +
          (if (runStatements c d i ss).failure = none then 0 else 1) := by
  intro ss
  induction ss with
  | nil => intro i; simp [runStatements]
  | cons s rest ih =>
    intro i
    refine runStatements_cons_cases c d i s rest _ ?_ ?_ ?_ ?_
    · intro rows _ _ heq
      rw [heq]
      simpa [Nat.succ_add] using ih (i + 1)
    · intro m _ _ heq
      rw [heq]
      simp
    · intro _ _ heq
      rw [heq]
      simpa [Nat.succ_add] using ih (i + 1)
    · intro m _ _ heq
      rw [heq]
      simp

/-- The loop never commits. -/
theorem runStatements_no_commit (c : Conn) (d : String → String) :
    ∀ (ss : List String) (i : Nat),
      DbCall.commitC ∉ (runStatements c d i ss).calls := by
  intro ss
  induction ss with
  | nil => intro i; simp [runStatements]
  | cons s rest ih =>
    intro i
    refine runStatements_cons_cases c d i s rest _ ?_ ?_ ?_ ?_
    · intro rows _ _ heq
      rw [heq]
      simpa using ih (i + 1)
    · intro m _ _ heq
      rw [heq]
      simp
    · intro _ _ heq
      rw [heq]
      simpa using ih (i + 1)
    · intro m _ _ heq
      rw [heq]
      simp

/-- Calls issued by one engine-level batch over parsed statements: the
loop's calls, then commit on loop success, then rollback whenever the
`except` clause ran (statement failure or commit failure). -/
theorem execBatchCore_calls (c : Conn) (d : String → String)
    (ss : List String) :
    (execBatchCore c d ss).calls =
      (runStatements c d 0 ss).calls ++
        (match (runStatements c d 0 ss).failure with
         | some _ => [DbCall.rollbackC]
         | none =>
           match c.commitR with
           | .ok _ => [DbCall.commitC]
           | .error _ => [DbCall.commitC, DbCall.rollbackC]) := by
  rcases hf : (runStatements c d 0 ss).failure with _ | ⟨s, e⟩ <;>
  rcases hc : c.commitR with _ | m <;>
  rcases hr : c.rollbackR with _ | m2 <;>
  rcases hl : ss.getLast? with _ | sl <;>
  simp [execBatchCore, exceptClause, SqlAlchemyConnection.commit,
    SqlAlchemyConnection.rollback, hf, hc, hr, hl]

/-- Inversion: the ways an engine-level batch can return a result list
(rather than propagate an exception). -/
theorem execBatchCore_ok_cases (c : Conn) (d : String → String)
    (ss : List String) (rs : List StmtResult)
    (h : (execBatchCore c d ss).value = .ok rs) :
    ((runStatements c d 0 ss).failure = none ∧ c.commitR = .ok () ∧
       rs = (runStatements c d 0 ss).results) ∨
    ((runStatements c d 0 ss).failure = none ∧ c.rollbackR = .ok () ∧
       ∃ m sl, c.commitR = .error m ∧ ss.getLast? = some sl ∧
         rs = (runStatements c d 0 ss).results ++
           [errorEntry sl ("Commit failed: " ++ m)]) ∨
    (c.rollbackR = .ok () ∧
       ∃ s e, (runStatements c d 0 ss).failure = some (s, e) ∧
         rs = (runStatements c d 0 ss).results ++ [errorEntry s e.msg]) := by
  rcases hf : (runStatements c d 0 ss).failure with _ | ⟨s, e⟩ <;>
  rcases hc : c.commitR with _ | m <;>
  rcases hr : c.rollbackR with _ | m2 <;>
  rcases hl : ss.getLast? with _ | sl <;>
  simp only [execBatchCore, exceptClause, SqlAlchemyConnection.commit,
    SqlAlchemyConnection.rollback, hf, hc, hr, hl, Except.ok.injEq,
    reduceCtorEq] at h
  all_goals first
    | exact Or.inl ⟨rfl, rfl, h.symm⟩
    | (refine Or.inr (Or.inl ⟨rfl, rfl, _, _, rfl, rfl, ?_⟩)
       simp [h.symm, DbExc.msg])
    | exact Or.inr (Or.inr ⟨rfl, _, _, rfl, h.symm⟩)

/-- Results recorded by the loop are success entries: no error message and a
non-error statement type. -/
theorem runStatements_results_success (c : Conn) (d : String → String)
    (ss : List String) (i j : Nat) (e : StmtResult)
    (h : (runStatements c d i ss).results[j]? = some e) :
    e.error = none ∧ e.statement_type ≠ ERROR_STATEMENT := by
  rcases (runStatements_results_get c d ss i j e h).2 with
    ⟨_, rows, he, _⟩ | ⟨_, he, _⟩
  · rw [he]
    refine ⟨rfl, ?_⟩
    simp [fetchEntry, FETCH_STATEMENT, ERROR_STATEMENT]
  · rw [he]
    refine ⟨rfl, ?_⟩
    simp [execEntry, EXECUTE_STATEMENT, ERROR_STATEMENT]

/-- Index lookup into a list extended by a single element. -/
theorem getElem?_append_single {α : Type} (l : List α) (x : α) (j : Nat) :
    (l ++ [x])[j]? =
      if j < l.length then l[j]?
      else if j = l.length then some x else none := by
  rw [List.getElem?_append]
  by_cases hlt : j < l.length
  · simp [hlt]
  · by_cases heq : j = l.length
    · subst heq
      simp
    · have h3 : ([x] : List α).length ≤ j - l.length := by simp; omega
      simp [hlt, heq, List.getElem?_eq_none h3]

/-- Appending commit/rollback/close calls does not change the attempted
statement positions. -/
theorem stmtIndices_append_aux (a b : List DbCall)
    (hb : ∀ x ∈ b, DbCall.stmtIndex x = none) :
    stmtIndices (a ++ b) = stmtIndices a := by
  simp only [stmtIndices, List.filterMap_append]
  rw [List.filterMap_eq_nil_iff.mpr hb, List.append_nil]

/-- Statement positions attempted by the engine-level batch are those of the
loop, whose count is the length of the loop's call list. -/
theorem execBatchCore_stmtIndices (c : Conn) (d : String → String)
    (ss : List String) :
    stmtIndices (execBatchCore c d ss).calls =
      List.range' 0 (runStatements c d 0 ss).calls.length := by
  rw [execBatchCore_calls]
  rw [stmtIndices_append_aux]
  · exact runStatements_stmtIndices c d ss 0
  · intro x hx
    have hcr : x = DbCall.commitC ∨ x = DbCall.rollbackC := by
      rcases hf : (runStatements c d 0 ss).failure with _ | p <;> rw [hf] at hx
      · rcases hc : c.commitR with _ | m <;> rw [hc] at hx <;> simp at hx <;>
          tauto
      · simp at hx
        tauto
    rcases hcr with h1 | h1 <;> simp [h1, DbCall.stmtIndex]

/-- Claim C2: for every batch over parsed statements, the returned result
list matches input order (entry j belongs to statement j), the attempted
statement positions are exactly an initial, increasing range 0,1,...,m-1 (no
statement runs out of order), and an error entry inside the statement range
at position j means exactly statements 0..j were attempted (no statement
after a failed one is attempted). -/
theorem claim2 (c : Conn) (d : String → String) (ss : List String)
    (rs : List StmtResult) (h : (execBatchCore c d ss).value = .ok rs) :
    (∀ (j : Nat) (e : StmtResult) (s : String),
        rs[j]? = some e → ss[j]? = some s → e.statement = s) ∧
    stmtIndices (execBatchCore c d ss).calls =
      List.range (stmtIndices (execBatchCore c d ss).calls).length ∧
    (∀ (j : Nat) (e : StmtResult), rs[j]? = some e →
        e.statement_type = ERROR_STATEMENT → j < ss.length →
        (stmtIndices (execBatchCore c d ss).calls).length = j + 1) := by
  have hidx := execBatchCore_stmtIndices c d ss
  have hlen : (stmtIndices (execBatchCore c d ss).calls).length =
      (runStatements c d 0 ss).calls.length := by
    rw [hidx, List.length_range']
  refine ⟨?_, ?_, ?_⟩
  · intro j e s hj hs
    rcases execBatchCore_ok_cases c d ss rs h with
      ⟨hf, hc, hrs⟩ | ⟨hf, hr, m, sl, hc, hl, hrs⟩ | ⟨hr, s0, e0, hf, hrs⟩
    · subst hrs
      have h1 := (runStatements_results_get c d ss 0 j e hj).1
      rw [h1] at hs
      exact (Option.some.injEq _ _ ▸ hs)
    · subst hrs
      rw [getElem?_append_single] at hj
      by_cases hlt : j < (runStatements c d 0 ss).results.length
      · rw [if_pos hlt] at hj
        have h1 := (runStatements_results_get c d ss 0 j e hj).1
        rw [h1] at hs
        exact (Option.some.injEq _ _ ▸ hs)
      · rw [if_neg hlt] at hj
        have hlen2 := runStatements_none_length c d ss 0 hf
        by_cases heq : j = (runStatements c d 0 ss).results.length
        · exfalso
          have hge : ss.length ≤ j := by omega
          rw [List.getElem?_eq_none hge] at hs
          exact Option.noConfusion hs
        · rw [if_neg heq] at hj
          exact Option.noConfusion hj
    · subst hrs
      rw [getElem?_append_single] at hj
      by_cases hlt : j < (runStatements c d 0 ss).results.length
      · rw [if_pos hlt] at hj
        have h1 := (runStatements_results_get c d ss 0 j e hj).1
        rw [h1] at hs
        exact (Option.some.injEq _ _ ▸ hs)
      · rw [if_neg hlt] at hj
        by_cases heq : j = (runStatements c d 0 ss).results.length
        · rw [if_pos heq] at hj
          have h2 := (runStatements_failure_stmt c d ss 0 s0 e0 hf).1
          subst heq
          rw [h2] at hs
          have hse : e = errorEntry s0 e0.msg := by
            simpa using hj.symm
          rw [hse]
          have : s0 = s := Option.some.injEq _ _ ▸ hs
          simp [errorEntry, this]
        · rw [if_neg heq] at hj
          exact Option.noConfusion hj
  · rw [hidx, List.length_range', List.range_eq_range']
  · intro j e hj htype hjlt
    rcases execBatchCore_ok_cases c d ss rs h with
      ⟨hf, hc, hrs⟩ | ⟨hf, hr, m, sl, hc, hl, hrs⟩ | ⟨hr, s0, e0, hf, hrs⟩
    · subst hrs
      exact absurd htype (runStatements_results_success c d ss 0 j e hj).2
    · subst hrs
      rw [getElem?_append_single] at hj
      by_cases hlt : j < (runStatements c d 0 ss).results.length
      · rw [if_pos hlt] at hj
        exact absurd htype (runStatements_results_success c d ss 0 j e hj).2
      · exfalso
        have hlen2 := runStatements_none_length c d ss 0 hf
        by_cases heq : j = (runStatements c d 0 ss).results.length
        · omega
        · rw [if_neg hlt, if_neg heq] at hj
          exact Option.noConfusion hj
    · subst hrs
      rw [getElem?_append_single] at hj
      by_cases hlt : j < (runStatements c d 0 ss).results.length
      · rw [if_pos hlt] at hj
        exact absurd htype (runStatements_results_success c d ss 0 j e hj).2
      · by_cases heq : j = (runStatements c d 0 ss).results.length
        · have hcl := runStatements_calls_length c d ss 0
          rw [hf] at hcl
          simp at hcl
          rw [hlen]
          omega
        · rw [if_neg hlt, if_neg heq] at hj
          exact absurd hj (by simp)

/-- Membership gives an index lookup. -/
theorem mem_getElem? {α : Type} {l : List α} {a : α} (h : a ∈ l) :
    ∃ i : Nat, l[i]? = some a := by
  obtain ⟨i, hi, he⟩ := List.mem_iff_getElem.mp h
  exact ⟨i, by rw [List.getElem?_eq_getElem hi, he]⟩

/-- Connection oracle on which every call succeeds (fetches return no rows). -/
def wConnOk : Conn := ⟨fun _ _ => .ok [], fun _ _ => .ok (), .ok (), .ok ()⟩

/-- Connection oracle returning one row for every fetch. -/
def wConnRows : Conn :=
  ⟨fun _ _ => .ok [[("x", "1")]], fun _ _ => .ok (), .ok (), .ok ()⟩

/-- Classifier marking everything as an execute statement. -/
def wDetectExec : String → String := fun _ => EXECUTE_STATEMENT

/-- Classifier marking everything as a fetch statement. -/
def wDetectFetch : String → String := fun _ => FETCH_STATEMENT

/-- Connection oracle whose second execute fails and whose rollback works. -/
def wConnFailB : Conn :=
  ⟨fun _ _ => .ok [],
   fun i _ => if i = 0 then .ok () else .error "boom", .ok (), .ok ()⟩

/-- Connection oracle whose execute fails and whose rollback also fails. -/
def cexConnRollbackFail : Conn :=
  ⟨fun _ _ => .ok [], fun _ _ => .error "x", .ok (), .error "r"⟩

/-- Connection oracle whose execute fails and whose rollback fails with a
timeout-sounding driver message. -/
def cexConnRollbackTimeout : Conn :=
  ⟨fun _ _ => .ok [], fun _ _ => .error "x", .ok (), .error "timeout"⟩

/-- Connection oracle whose execute fails (rollback works). -/
def cexConnExecFail : Conn :=
  ⟨fun _ _ => .ok [], fun _ _ => .error "no such table", .ok (), .ok ()⟩

/-- Claim C2 witness: the ordering theorem applied to a concrete two
statement batch; the first entry is the first statement's result. -/
theorem claim2_witness :
    (execBatchCore wConnOk wDetectExec ["A", "B"]).value =
      .ok [execEntry "A", execEntry "B"] ∧
    (execEntry "A").statement = "A" :=
  ⟨by decide,
   (claim2 wConnOk wDetectExec ["A", "B"] [execEntry "A", execEntry "B"]
      (by decide)).1 0 (execEntry "A") "A" (by decide) (by decide)⟩

/-- Claim C3 counterexample: a batch whose single statement fails yields
exactly one (error) entry, so the entry count equals the parsed-statement
count even though a statement failed — refuting the claimed "equality iff no
statement failed". -/
theorem claim3_counterexample :
    (execBatchCore cexConnExecFail wDetectExec ["DROP TABLE t"]).value =
      .ok [errorEntry "DROP TABLE t" "SQL execution failed: no such table"] ∧
    [errorEntry "DROP TABLE t" "SQL execution failed: no such table"].length =
      ["DROP TABLE t"].length ∧
    (errorEntry "DROP TABLE t"
        "SQL execution failed: no such table").statement_type =
      ERROR_STATEMENT := by
  exact ⟨by decide, by decide, by decide⟩

/-- Claim C3 (amended): the entry count is at most the parsed-statement
count plus one (the extra entry arises exactly when every statement succeeds
and the final commit fails), and the count equals the statement count with
every entry error-free if and only if no statement failed and the commit
succeeded. -/
theorem claim3_amended (c : Conn) (d : String → String) (ss : List String)
    (rs : List StmtResult) (h : (execBatchCore c d ss).value = .ok rs) :
    rs.length ≤ ss.length + 1 ∧
    ((rs.length = ss.length ∧ ∀ e ∈ rs, e.error = none) ↔
      ((runStatements c d 0 ss).failure = none ∧ c.commitR = .ok ())) := by
  rcases execBatchCore_ok_cases c d ss rs h with
    ⟨hf, hc, hrs⟩ | ⟨hf, hr, m, sl, hc, hl, hrs⟩ | ⟨hr, s0, e0, hf, hrs⟩
  · subst hrs
    have hlen := runStatements_none_length c d ss 0 hf
    constructor
    · omega
    · constructor
      · intro _
        exact ⟨hf, hc⟩
      · intro _
        refine ⟨hlen, ?_⟩
        intro e he
        obtain ⟨j, hj⟩ := mem_getElem? he
        exact (runStatements_results_success c d ss 0 j e hj).1
  · subst hrs
    have hlen := runStatements_none_length c d ss 0 hf
    constructor
    · simp [hlen]
    · constructor
      · intro ⟨_, hall⟩
        exfalso
        have hmem : errorEntry sl ("Commit failed: " ++ m) ∈
            (runStatements c d 0 ss).results ++
              [errorEntry sl ("Commit failed: " ++ m)] := by simp
        have := hall _ hmem
        simp [errorEntry] at this
      · intro ⟨_, hc2⟩
        rw [hc] at hc2
        exact absurd hc2 (by simp)
  · subst hrs
    have hlen := runStatements_some_length c d ss 0 s0 e0 hf
    constructor
    · simp only [List.length_append, List.length_singleton]
      omega
    · constructor
      · intro ⟨_, hall⟩
        exfalso
        have hmem : errorEntry s0 e0.msg ∈
            (runStatements c d 0 ss).results ++ [errorEntry s0 e0.msg] := by
          simp
        have := hall _ hmem
        simp [errorEntry] at this
      · intro ⟨hf2, _⟩
        rw [hf] at hf2
        exact absurd hf2 (by simp)

/-- Claim C3 witness: the amended theorem applied to a concrete successful
single-statement batch. -/
theorem claim3_witness :
    (execBatchCore wConnOk wDetectExec ["A"]).value = .ok [execEntry "A"] ∧
    ([execEntry "A"].length ≤ ["A"].length + 1 ∧
      (([execEntry "A"].length = ["A"].length ∧
          ∀ e ∈ [execEntry "A"], e.error = none) ↔
        ((runStatements wConnOk wDetectExec 0 ["A"]).failure = none ∧
          wConnOk.commitR = .ok ()))) :=
  ⟨by decide, claim3_amended wConnOk wDetectExec ["A"] [execEntry "A"]
    (by decide)⟩

/-- Claim C1 counterexample: the single statement fails and rollback is
issued, but the rollback itself fails, so the engine propagates an exception
instead of appending the statement's error entry and returning the
accumulated results — refuting the claim for this execution. -/
theorem claim1_counterexample :
    (runStatements cexConnRollbackFail wDetectExec 0 ["UPDATE t SET x"]).failure
      = some ("UPDATE t SET x", .opE "SQL execution failed: x") ∧
    (execBatchCore cexConnRollbackFail wDetectExec ["UPDATE t SET x"]).calls
      = [.executeC 0 "UPDATE t SET x", .rollbackC] ∧
    (execBatchCore cexConnRollbackFail wDetectExec ["UPDATE t SET x"]).value
      = .error (.opE "Rollback failed: r") := by
  exact ⟨by decide, by decide, by decide⟩

/-- Claim C1 (amended): when statement `s` fails with exception `e` and the
subsequent rollback succeeds, the engine appends an error entry carrying
`str(e)`, issues rollback, never commits, attempts no statement beyond the
failing one, and returns the accumulated results without propagating an
exception. -/
theorem claim1_amended (c : Conn) (d : String → String) (ss : List String)
    (s : String) (e : DbExc)
    (hfail : (runStatements c d 0 ss).failure = some (s, e))
    (hrb : c.rollbackR = .ok ()) :
    (execBatchCore c d ss).value =
      .ok ((runStatements c d 0 ss).results ++ [errorEntry s e.msg]) ∧
    DbCall.rollbackC ∈ (execBatchCore c d ss).calls ∧
    DbCall.commitC ∉ (execBatchCore c d ss).calls ∧
    (stmtIndices (execBatchCore c d ss).calls).length =
      (runStatements c d 0 ss).results.length + 1 ∧
    (runStatements c d 0 ss).results.length < ss.length := by
  have hcalls := execBatchCore_calls c d ss
  rw [hfail] at hcalls
  refine ⟨?_, ?_, ?_, ?_, ?_⟩
  · simp only [execBatchCore, exceptClause, SqlAlchemyConnection.rollback,
      hfail, hrb]
  · rw [hcalls]
    simp
  · rw [hcalls]
    have hnc := runStatements_no_commit c d ss 0
    simp [List.mem_append, hnc]
  · rw [execBatchCore_stmtIndices, List.length_range']
    have hcl := runStatements_calls_length c d ss 0
    rw [hfail] at hcl
    simp at hcl
    omega
  · exact runStatements_some_length c d ss 0 s e hfail

/-- Claim C1 witness: the amended theorem applied to a two-statement batch
whose second statement fails while rollback succeeds. -/
theorem claim1_witness :
    (runStatements wConnFailB wDetectExec 0 ["A", "B"]).failure =
      some ("B", .opE "SQL execution failed: boom") ∧
    wConnFailB.rollbackR = .ok () ∧
    ((execBatchCore wConnFailB wDetectExec ["A", "B"]).value =
      .ok ((runStatements wConnFailB wDetectExec 0 ["A", "B"]).results ++
        [errorEntry "B" (DbExc.opE "SQL execution failed: boom").msg]) ∧
     DbCall.rollbackC ∈ (execBatchCore wConnFailB wDetectExec ["A", "B"]).calls ∧
     DbCall.commitC ∉ (execBatchCore wConnFailB wDetectExec ["A", "B"]).calls ∧
     (stmtIndices (execBatchCore wConnFailB wDetectExec ["A", "B"]).calls).length =
       (runStatements wConnFailB wDetectExec 0 ["A", "B"]).results.length + 1 ∧
     (runStatements wConnFailB wDetectExec 0 ["A", "B"]).results.length <
       ["A", "B"].length) :=
  ⟨by decide, by decide,
   claim1_amended wConnFailB wDetectExec ["A", "B"] "B"
     (DbExc.opE "SQL execution failed: boom") (by decide) (by decide)⟩

/-- Claim C4: commit is called on the connection if and only if every parsed
statement executed successfully (the loop finished without failure); when
any statement fails, rollback is called and commit is never called. -/
theorem claim4 (c : Conn) (d : String → String) (ss : List String) :
    (DbCall.commitC ∈ (execBatchCore c d ss).calls ↔
      (runStatements c d 0 ss).failure = none) ∧
    ((runStatements c d 0 ss).failure ≠ none →
      DbCall.rollbackC ∈ (execBatchCore c d ss).calls ∧
      DbCall.commitC ∉ (execBatchCore c d ss).calls) := by
  have hcalls := execBatchCore_calls c d ss
  have hnc := runStatements_no_commit c d ss 0
  rcases hf : (runStatements c d 0 ss).failure with _ | p <;> rw [hf] at hcalls
  · rw [hcalls]
    rcases hc : c.commitR with _ | m <;> simp [List.mem_append]
  · rw [hcalls]
    constructor
    · simp [List.mem_append, hnc]
    · intro _
      simp [List.mem_append, hnc]

/-- Claim C4 witness: the theorem applied to a concrete batch whose single
statement fails. -/
theorem claim4_witness :
    (DbCall.commitC ∈ (execBatchCore cexConnExecFail wDetectExec ["X"]).calls ↔
      (runStatements cexConnExecFail wDetectExec 0 ["X"]).failure = none) ∧
    ((runStatements cexConnExecFail wDetectExec 0 ["X"]).failure ≠ none →
      DbCall.rollbackC ∈ (execBatchCore cexConnExecFail wDetectExec ["X"]).calls ∧
      DbCall.commitC ∉ (execBatchCore cexConnExecFail wDetectExec ["X"]).calls) :=
  claim4 cexConnExecFail wDetectExec ["X"]

/-- Claim C7: every returned entry populates exactly one of rows / success /
error message: a fetch statement that succeeds carries rows with the row
count equal to the number of rows and no error; a non-fetch statement that
succeeds carries the literal true with a null row count and no error; a
failed statement carries only an error message. -/
theorem claim7 (c : Conn) (d : String → String) (ss : List String)
    (rs : List StmtResult) (h : (execBatchCore c d ss).value = .ok rs) :
    ∀ e ∈ rs,
      (d e.statement = FETCH_STATEMENT ∧
        e.statement_type = FETCH_STATEMENT ∧
        (∃ rows, e.result = some (.rows rows) ∧
          e.row_count = some (some rows.length)) ∧ e.error = none) ∨
      (d e.statement ≠ FETCH_STATEMENT ∧
        e.statement_type = EXECUTE_STATEMENT ∧
        e.result = some .boolTrue ∧ e.row_count = some none ∧
        e.error = none) ∨
      (e.statement_type = ERROR_STATEMENT ∧ e.result = none ∧
        e.row_count = none ∧ ∃ m, e.error = some m) := by
  intro e he
  obtain ⟨j, hj⟩ := mem_getElem? he
  have hsucc : ∀ (k : Nat),
      (runStatements c d 0 ss).results[k]? = some e →
      (d e.statement = FETCH_STATEMENT ∧
        e.statement_type = FETCH_STATEMENT ∧
        (∃ rows, e.result = some (.rows rows) ∧
          e.row_count = some (some rows.length)) ∧ e.error = none) ∨
      (d e.statement ≠ FETCH_STATEMENT ∧
        e.statement_type = EXECUTE_STATEMENT ∧
        e.result = some .boolTrue ∧ e.row_count = some none ∧
        e.error = none) ∨
      (e.statement_type = ERROR_STATEMENT ∧ e.result = none ∧
        e.row_count = none ∧ ∃ m, e.error = some m) := by
    intro k hk
    rcases (runStatements_results_get c d ss 0 k e hk).2 with
      ⟨hd, rows, hee, _⟩ | ⟨hd, hee, _⟩
    · rw [hee]
      exact Or.inl ⟨by simpa [fetchEntry] using hd, rfl, ⟨rows, rfl, rfl⟩, rfl⟩
    · rw [hee]
      exact Or.inr (Or.inl ⟨by simpa [execEntry] using hd, rfl, rfl, rfl, rfl⟩)
  rcases execBatchCore_ok_cases c d ss rs h with
    ⟨hf, hc, hrs⟩ | ⟨hf, hr, m, sl, hc, hl, hrs⟩ | ⟨hr, s0, e0, hf, hrs⟩
  · subst hrs
    exact hsucc j hj
  · subst hrs
    rw [getElem?_append_single] at hj
    by_cases hlt : j < (runStatements c d 0 ss).results.length
    · rw [if_pos hlt] at hj
      exact hsucc j hj
    · by_cases heq : j = (runStatements c d 0 ss).results.length
      · rw [if_neg hlt, if_pos heq] at hj
        have he2 : e = errorEntry sl ("Commit failed: " ++ m) := by
          simpa using hj.symm
        rw [he2]
        exact Or.inr (Or.inr ⟨rfl, rfl, rfl, _, rfl⟩)
      · rw [if_neg hlt, if_neg heq] at hj
        exact absurd hj (by simp)
  · subst hrs
    rw [getElem?_append_single] at hj
    by_cases hlt : j < (runStatements c d 0 ss).results.length
    · rw [if_pos hlt] at hj
      exact hsucc j hj
    · by_cases heq : j = (runStatements c d 0 ss).results.length
      · rw [if_neg hlt, if_pos heq] at hj
        have he2 : e = errorEntry s0 e0.msg := by
          simpa using hj.symm
        rw [he2]
        exact Or.inr (Or.inr ⟨rfl, rfl, rfl, _, rfl⟩)
      · rw [if_neg hlt, if_neg heq] at hj
        exact absurd hj (by simp)

/-- Claim C7 witness: the theorem applied to a concrete one-row fetch. -/
theorem claim7_witness :
    (execBatchCore wConnRows wDetectFetch ["SELECT x"]).value =
      .ok [fetchEntry "SELECT x" [[("x", "1")]]] ∧
    ((wDetectFetch (fetchEntry "SELECT x" [[("x", "1")]]).statement =
        FETCH_STATEMENT ∧
      (fetchEntry "SELECT x" [[("x", "1")]]).statement_type =
        FETCH_STATEMENT ∧
      (∃ rows, (fetchEntry "SELECT x" [[("x", "1")]]).result =
          some (.rows rows) ∧
        (fetchEntry "SELECT x" [[("x", "1")]]).row_count =
          some (some rows.length)) ∧
      (fetchEntry "SELECT x" [[("x", "1")]]).error = none) ∨
     (wDetectFetch (fetchEntry "SELECT x" [[("x", "1")]]).statement ≠
        FETCH_STATEMENT ∧
      (fetchEntry "SELECT x" [[("x", "1")]]).statement_type =
        EXECUTE_STATEMENT ∧
      (fetchEntry "SELECT x" [[("x", "1")]]).result = some .boolTrue ∧
      (fetchEntry "SELECT x" [[("x", "1")]]).row_count = some none ∧
      (fetchEntry "SELECT x" [[("x", "1")]]).error = none) ∨
     ((fetchEntry "SELECT x" [[("x", "1")]]).statement_type =
        ERROR_STATEMENT ∧
      (fetchEntry "SELECT x" [[("x", "1")]]).result = none ∧
      (fetchEntry "SELECT x" [[("x", "1")]]).row_count = none ∧
      ∃ m, (fetchEntry "SELECT x" [[("x", "1")]]).error = some m)) :=
  ⟨by decide,
   claim7 wConnRows wDetectFetch ["SELECT x"]
     [fetchEntry "SELECT x" [[("x", "1")]]] (by decide)
     (fetchEntry "SELECT x" [[("x", "1")]]) (by decide)⟩

/-- The splitter fails only with one of its two unterminated-input
messages. -/
theorem scanSql_error_msg : ∀ (cs : List Char) (st : ScanState)
    (cur : List Char) (acc : List String) (pe : String),
    scanSql cs st cur acc = .error pe →
    pe = unterminatedQuoteMsg ∨ pe = unterminatedCommentMsg := by
  intro cs
  induction cs with
  | nil =>
    intro st cur acc pe h
    cases st <;> simp only [scanSql] at h <;> simp_all
  | cons c rest ih =>
    intro st cur acc pe h
    cases st <;> simp only [scanSql] at h <;> (try split at h) <;>
      (try split at h) <;> exact ih _ _ _ pe h

/-- Parse errors carry one of the two splitter messages. -/
theorem parse_error_msg (q pe : String)
    (h : parse_sql_statements q = .error pe) :
    pe = unterminatedQuoteMsg ∨ pe = unterminatedCommentMsg :=
  scanSql_error_msg q.data .normal [] [] pe h

/-- Neither splitter message sounds connection-like to `batch`'s keyword
test. -/
theorem parse_error_not_connection_like (q pe : String)
    (h : parse_sql_statements q = .error pe) :
    isConnectionLike pe = false := by
  rcases parse_error_msg q pe h with h1 | h1 <;> rw [h1] <;> decide

/-- The connection close performed by the `with` block never replaces the
pending batch value. -/
theorem afterClose_close (v : Except DbExc (List StmtResult))
    (u : Except String Unit) :
    afterClose v (SqlAlchemyConnection.close u) = v := by
  cases u <;> rfl

/-- Unfolding of `batch` once a connection has been obtained. -/
theorem batchFn_ok (c : Conn) (closeO : Except String Unit)
    (d : String → String) (q : String) :
    batchFn (.ok c) closeO d q =
      match (execBatchStatements c d q).value with
      | .ok rs => (.ok rs, (execBatchStatements c d q).calls ++ [DbCall.closeC])
      | .error e =>
        if e.isConnE || isConnectionLike e.msg then
          (.error (.connE ("Database connection failed: " ++ e.msg)),
           (execBatchStatements c d q).calls ++ [DbCall.closeC])
        else
          (.ok [errorEntry q e.msg],
           (execBatchStatements c d q).calls ++ [DbCall.closeC]) := by
  simp only [batchFn, afterClose_close]

/-- Claim C5 counterexample: the connection is acquired successfully, yet
`batch` raises a DatabaseConnectionError, because the statement failed and
the rollback failed with a timeout-sounding message that the keyword test
classifies as connection-like — refuting "connection acquisition is the only
failure surfaced as a raised error". -/
theorem claim5_counterexample :
    batchFn (.ok cexConnRollbackTimeout) (.ok ()) wDetectExec
        "DELETE FROM t" =
      (.error (.connE "Database connection failed: Rollback failed: timeout"),
       [.executeC 0 "DELETE FROM t", .rollbackC, .closeC]) := by
  decide

/-- Unfolding of `batch` when the statement phase returns results. -/
theorem batchFn_ok_val (c : Conn) (closeO : Except String Unit)
    (d : String → String) (q : String) (rs : List StmtResult)
    (hv : (execBatchStatements c d q).value = .ok rs) :
    batchFn (.ok c) closeO d q =
      (.ok rs, (execBatchStatements c d q).calls ++ [DbCall.closeC]) := by
  rw [batchFn_ok, hv]

/-- Unfolding of `batch` when an exception escapes the statement phase. -/
theorem batchFn_ok_err (c : Conn) (closeO : Except String Unit)
    (d : String → String) (q : String) (e : DbExc)
    (hv : (execBatchStatements c d q).value = .error e) :
    batchFn (.ok c) closeO d q =
      if e.isConnE || isConnectionLike e.msg then
        (.error (.connE ("Database connection failed: " ++ e.msg)),
         (execBatchStatements c d q).calls ++ [DbCall.closeC])
      else
        (.ok [errorEntry q e.msg],
         (execBatchStatements c d q).calls ++ [DbCall.closeC]) := by
  rw [batchFn_ok, hv]

/-- Claim C5 (amended): when connection acquisition fails, `batch` raises a
DatabaseConnectionError (with the acquisition message); and for an acquired
connection, `batch` raises an error exactly when an exception escapes the
statement phase that either is a DatabaseConnectionError or has a
connection-like message — so acquisition failure is not the only raised
error path. -/
theorem claim5_amended (closeO : Except String Unit) (d : String → String)
    (q : String) :
    (∀ ce : String, batchFn (.error ce) closeO d q =
      (.error (.connE ("Database connection failed: " ++
        ("Failed to create connection: " ++ ce))), [])) ∧
    (∀ c : Conn,
      (∃ e2, (batchFn (.ok c) closeO d q).1 = .error e2) ↔
      (∃ e, (execBatchStatements c d q).value = .error e ∧
        (e.isConnE || isConnectionLike e.msg) = true)) := by
  constructor
  · intro ce
    rfl
  · intro c
    rcases hv : (execBatchStatements c d q).value with e | rs
    · rw [batchFn_ok_err c closeO d q e hv]
      by_cases hcond : (e.isConnE || isConnectionLike e.msg) = true
      · rw [if_pos hcond]
        constructor
        · intro _
          exact ⟨e, rfl, hcond⟩
        · intro _
          exact ⟨.connE ("Database connection failed: " ++ e.msg), rfl⟩
      · rw [if_neg hcond]
        constructor
        · rintro ⟨e2, h2⟩
          exact absurd h2 (by simp)
        · rintro ⟨e3, he3, hc3⟩
          have he : e3 = e := by
            have := he3.symm
            simpa using this
          rw [he] at hc3
          exact absurd hc3 hcond
    · rw [batchFn_ok_val c closeO d q rs hv]
      constructor
      · rintro ⟨e2, h2⟩
        exact absurd h2 (by simp)
      · rintro ⟨e3, he3, _⟩
        exact absurd he3 (by simp)

/-- Claim C5 witness: the amended theorem applied at a failed acquisition
and at a successfully acquired connection running one statement. -/
theorem claim5_witness :
    batchFn (.error "refused") (.ok ()) wDetectExec "SELECT 1" =
      (.error (.connE ("Database connection failed: " ++
        ("Failed to create connection: " ++ "refused"))), []) ∧
    ((∃ e2, (batchFn (.ok wConnOk) (.ok ()) wDetectExec "SELECT 1").1 =
        .error e2) ↔
      (∃ e, (execBatchStatements wConnOk wDetectExec "SELECT 1").value =
          .error e ∧ (e.isConnE || isConnectionLike e.msg) = true)) :=
  ⟨(claim5_amended (.ok ()) wDetectExec "SELECT 1").1 "refused",
   (claim5_amended (.ok ()) wDetectExec "SELECT 1").2 wConnOk⟩

/-- Input ending inside a single-quoted literal. -/
def sqlUnterminatedInput : String :=
  "SELECT " ++ String.mk [squoteChar, 'o', 'o', 'p', 's']

/-- Input ending inside a block comment. -/
def sqlUnterminatedBlock : String := "SELECT /* oops"

/-- Claim C6 counterexample: splitting this input fails with a parse error,
yet `batch` does not raise — it catches the error and returns a single-entry
BatchResult carrying the parse error message. -/
theorem claim6_counterexample :
    parse_sql_statements sqlUnterminatedInput = .error unterminatedQuoteMsg ∧
    batchFn (.ok wConnOk) (.ok ()) wDetectExec sqlUnterminatedInput =
      (.ok [errorEntry sqlUnterminatedInput unterminatedQuoteMsg],
       [DbCall.closeC]) := by
  exact ⟨by decide, by decide⟩

/-- Claim C6 (amended): a parse error does not propagate out of `batch`:
for every input on which splitting fails, `batch` on an acquired connection
returns a single-entry error result carrying the parse message (the close
call is the only connection call), because the splitter's messages are never
classified as connection-like. -/
theorem claim6_amended (q pe : String) (closeO : Except String Unit)
    (d : String → String) (c : Conn)
    (hp : parse_sql_statements q = .error pe) :
    batchFn (.ok c) closeO d q = (.ok [errorEntry q pe], [DbCall.closeC]) := by
  have hnl := parse_error_not_connection_like q pe hp
  rw [batchFn_ok]
  simp only [execBatchStatements, hp]
  simp [DbExc.isConnE, DbExc.msg, hnl]

/-- Claim C6 witness: the amended theorem applied to an input ending inside
a block comment. -/
theorem claim6_witness :
    parse_sql_statements sqlUnterminatedBlock = .error unterminatedCommentMsg ∧
    batchFn (.ok wConnRows) (.ok ()) wDetectFetch sqlUnterminatedBlock =
      (.ok [errorEntry sqlUnterminatedBlock unterminatedCommentMsg],
       [DbCall.closeC]) :=
  ⟨by decide,
   claim6_amended sqlUnterminatedBlock unterminatedCommentMsg (.ok ())
     wDetectFetch wConnRows (by decide)⟩

/-- Claim C8: with a non-empty parameter mapping, a question mark anywhere
in the SQL text makes `execute` pass the mapping's values as a positional
list; otherwise a non-empty mapping is passed as named parameters. -/
theorem claim8 {V : Type} (sql : String) (ps : List (String × V))
    (hne : ps ≠ []) :
    (strContainsSub sql "?" = true →
      paramBinding sql ps = .positional (ps.map Prod.snd)) ∧
    (strContainsSub sql "?" = false →
      paramBinding sql ps = .named ps) := by
  have hb : ps.isEmpty = false := by
    simpa using hne
  constructor
  · intro hq
    simp [paramBinding, hb, hq]
  · intro hq
    simp [paramBinding, hb, hq]

/-- Claim C8 witness: the theorem applied to a concrete mapping and a SQL
text containing a question mark. -/
theorem claim8_witness :
    ([("id", (5 : Nat))] ≠ ([] : List (String × Nat))) ∧
    ((strContainsSub "SELECT a FROM t WHERE id = ?" "?" = true →
       paramBinding "SELECT a FROM t WHERE id = ?" [("id", (5 : Nat))] =
         .positional [5]) ∧
     (strContainsSub "SELECT a FROM t WHERE id = ?" "?" = false →
       paramBinding "SELECT a FROM t WHERE id = ?" [("id", (5 : Nat))] =
         .named [("id", 5)])) :=
  ⟨by decide, claim8 "SELECT a FROM t WHERE id = ?" [("id", 5)] (by decide)⟩

/-- From a freshly closed breaker, each failure below the threshold just
counts. -/
theorem failN_closed (cfg : CircuitBreakerConfig) (t : Nat) :
    ∀ j, j < cfg.failureThreshold →
      failN cfg t j (.closed 0) = .closed j := by
  intro j
  induction j with
  | zero => intro _; rfl
  | succ n ih =>
    intro hlt
    rw [failN, ih (by omega)]
    simp only [cbCall]
    rw [if_neg (by omega)]

/-- Claim C9 (circuit breaker, modelled from the spec): from Closed with a
zero counter, `failureThreshold` consecutive failures open the breaker;
while `resetTimeout` has not elapsed since opening, any call is rejected
without invoking the wrapped operation; once it has elapsed the breaker
admits a single trial call, and a successful trial closes the breaker with
the failure counter reset to zero. -/
theorem claim9 (cfg : CircuitBreakerConfig) (t now1 now2 : Nat)
    (hthr : 1 ≤ cfg.failureThreshold)
    (h1 : now1 < t + cfg.resetTimeout)
    (h2 : t + cfg.resetTimeout ≤ now2) :
    failN cfg t cfg.failureThreshold (.closed 0) = .opened t ∧
    (∀ b : Bool, cbCall cfg (.opened t) now1 b =
      ⟨.opened t, false, true, false⟩) ∧
    cbCall cfg (.opened t) now2 true = ⟨.closed 0, true, false, true⟩ := by
  refine ⟨?_, ?_, ?_⟩
  · obtain ⟨k, hk⟩ : ∃ k, cfg.failureThreshold = k + 1 :=
      ⟨cfg.failureThreshold - 1, by omega⟩
    rw [hk, failN, failN_closed cfg t k (by omega)]
    simp only [cbCall]
    rw [if_pos (by omega)]
  · intro b
    cases b <;> simp only [cbCall] <;> rw [if_neg (by omega)]
  · simp only [cbCall]
    rw [if_pos h2]
    simp

/-- Claim C9 witness: the theorem applied at threshold 2 and reset timeout
5, opening at time 0, with a rejected call at time 3 and a successful trial
at time 5. -/
theorem claim9_witness :
    1 ≤ (⟨2, 5⟩ : CircuitBreakerConfig).failureThreshold ∧
    3 < 0 + (⟨2, 5⟩ : CircuitBreakerConfig).resetTimeout ∧
    0 + (⟨2, 5⟩ : CircuitBreakerConfig).resetTimeout ≤ 5 ∧
    (failN ⟨2, 5⟩ 0 2 (.closed 0) = .opened 0 ∧
     (∀ b : Bool, cbCall ⟨2, 5⟩ (.opened 0) 3 b =
       ⟨.opened 0, false, true, false⟩) ∧
     cbCall ⟨2, 5⟩ (.opened 0) 5 true = ⟨.closed 0, true, false, true⟩) :=
  ⟨by decide, by decide, by decide,
   claim9 ⟨2, 5⟩ 0 3 5 (by decide) (by decide) (by decide)⟩

/-- Claim C10: closing the connection and closing the engine never raise to
the caller — whatever the underlying driver `close`/`dispose` outcome, the
wrappers swallow the failure, so the cleanup performed on the way out of
`batch` leaves the pending batch value untouched. -/
theorem claim10 (u v : Except String Unit)
    (w : Except DbExc (List StmtResult)) :
    (SqlAlchemyConnection.close u).raised = none ∧
    (UnifiedDatabaseEngine.close v).raised = none ∧
    afterClose w (SqlAlchemyConnection.close u) = w := by
  cases u <;> cases v <;> exact ⟨rfl, rfl, rfl⟩
